import Mathlib

/-!
Shallow embedding of the collection-and-dispatch pipeline of vsphere-graphite
(src/vsphere-graphite.go): the consuming loop of `Manage`, its point buffer and
flush logic, the shutdown handling, and the exit path of `main`.
-/

namespace VsphereGraphite

/-- Modelled from the spec: `backend.Point` lives in the backend package, which is
not among the shown source files. One telemetry sample: metric name/path, numeric
value, timestamp, and key/value tags identifying the source entity. The Go zero
value `backend.Point\x7b\x7d` has every field at its zero value. -/
structure Point where
  name : String
  value : Int
  timestamp : Int
  tags : List (String × String)
  deriving DecidableEq

/-- The Go zero value of `backend.Point`, used as the empty-slot sentinel when the
buffer is reset after a full flush. -/
def Point.zero : Point :=
  { name := "", value := 0, timestamp := 0, tags := [] }

/-- Stands for Go `error`; an `Option GoError` is `nil` exactly when it is `none`. -/
abbrev GoError := String

/-- The signals registered by `signal.Notify(interrupt, os.Interrupt, os.Kill,
syscall.SIGTERM)` at src/vsphere-graphite.go line 148. -/
inductive GoSignal where
  | interrupt
  | kill
  | sigterm
  deriving DecidableEq

/-- String rendering of a signal, as printed by
`stdlog.Println("Got signal:", killSignal)`. -/
def GoSignal.toString : GoSignal → String
  | .interrupt => "interrupt"
  | .kill => "killed"
  | .sigterm => "terminated"

/-- The four event sources multiplexed by the `select` statement of the consuming
loop in `Manage`: a Point arriving on the metrics channel, a collection-ticker
tick, a memory-timer tick (carrying the human-readable size string that
`bytefmt.ByteSize(memstats.Sys)` produces), and a termination signal. -/
inductive Event where
  | metric (p : Point)
  | tick
  | memtimer (size : String)
  | signal (killSignal : GoSignal)
  deriving DecidableEq

/-- The log line `stdlog.Printf("Sent %d logs to backend", n)`. -/
def sentLogMsg (n : Nat) : String :=
  "Sent " ++ Nat.repr n ++ " logs to backend"

/-- State owned by the consuming loop of `Manage`: the `pointbuffer` slice, the
`bufferindex` cursor, the trace of batches handed to `config.Backend.SendMetrics`
(in call order), and the stdlog lines emitted inside the loop. -/
structure LoopState where
  pointbuffer : List Point
  bufferindex : Nat
  sent : List (List Point)
  logs : List String
  deriving DecidableEq

/-- One iteration of the `for` / `select` consuming loop of `Manage`
(src/vsphere-graphite.go lines 174-207). `backend` is the
`config.Backend.SendMetrics` collaborator; the Go code discards its error result
at both call sites, which this translation mirrors. The second component is
`some (status, err)` exactly when `Manage` returns out of the loop. -/
def loopStep (backend : List Point → Option GoError) (st : LoopState) :
    Event → LoopState × Option (String × Option GoError)
  | .metric value =>
    let pb := st.pointbuffer.set st.bufferindex value
    let bi := st.bufferindex + 1
    if bi = pb.length then
      let _ := backend pb
      ({ pointbuffer := List.replicate pb.length Point.zero,
         bufferindex := 0,
         sent := st.sent ++ [pb],
         logs := st.logs ++ [sentLogMsg pb.length] }, none)
    else
      ({ st with pointbuffer := pb, bufferindex := bi }, none)
  | .tick =>
    ({ st with logs := st.logs ++ ["Retrieving metrics"] }, none)
  | .memtimer size =>
    ({ st with logs := st.logs ++ ["Memory usage : " ++ size] }, none)
  | .signal killSignal =>
    let st1 := { st with
      logs := st.logs ++ ["Got signal: " ++ killSignal.toString] }
    let st2 :=
      if 0 < st.bufferindex then
        let _ := backend (st.pointbuffer.take st.bufferindex)
        { st1 with
          sent := st1.sent ++ [st.pointbuffer.take st.bufferindex],
          logs := st1.logs ++ [sentLogMsg st.bufferindex] }
      else st1
    if killSignal = GoSignal.interrupt then
      (st2, some ("Daemon was interrupted by system signal", none))
    else
      (st2, some ("Daemon was killed", none))

/-- Runs the consuming loop over a finite trace of events. The Go loop runs until
one of the `return` statements in the signal case fires; `none` in the second
component means the trace was exhausted with the loop still running. Events that
come after the loop has returned are never processed. -/
def runLoop (backend : List Point → Option GoError) (st : LoopState) :
    List Event → LoopState × Option (String × Option GoError)
  | [] => (st, none)
  | e :: es =>
    match loopStep backend st e with
    | (st1, none) => runLoop backend st1 es
    | (st1, some r) => (st1, some r)

/-- Loop state at loop entry: `pointbuffer := make([]backend.Point,
config.FlushSize)` (a slice of zero values) and `bufferindex := 0`
(src/vsphere-graphite.go lines 171-172). -/
def initState (flushSize : Nat) : LoopState :=
  { pointbuffer := List.replicate flushSize Point.zero,
    bufferindex := 0,
    sent := [],
    logs := [] }

/-- Observable effects of the daemon path of `Manage`: how many vcenter query
goroutines were launched at startup, whether the two tickers were started,
whether the consuming loop was entered, the returned `(status, error)` pair
(`none` if the loop never returned within the trace), and the loop state at the
end (absent when the loop was never entered). -/
structure ManageEffects where
  queriesLaunched : Nat
  tickerStarted : Bool
  memtimerStarted : Bool
  loopEntered : Bool
  result : Option (String × Option GoError)
  finalState : Option LoopState
  deriving DecidableEq

/-- The daemon path of `Manage` from the FlushSize default on
(src/vsphere-graphite.go lines 94-207): a zero configured FlushSize defaults to
1000; if `config.Backend.Init` fails, `Manage` returns
"Could not initialize backend" with that error before the query goroutines are
launched, before either ticker is started, and before the consuming loop is
entered; otherwise it launches one query goroutine per vcenter, starts both
tickers, and runs the consuming loop over the event trace. -/
def Manage (flushSizeCfg : Nat) (numVCenters : Nat) (backendInitErr : Option GoError)
    (backend : List Point → Option GoError) (events : List Event) : ManageEffects :=
  let flushSize := if flushSizeCfg = 0 then 1000 else flushSizeCfg
  match backendInitErr with
  | some e =>
    { queriesLaunched := 0, tickerStarted := false, memtimerStarted := false,
      loopEntered := false,
      result := some ("Could not initialize backend", some e),
      finalState := none }
  | none =>
    let r := runLoop backend (initState flushSize) events
    { queriesLaunched := numVCenters, tickerStarted := true, memtimerStarted := true,
      loopEntered := true,
      result := r.2,
      finalState := some r.1 }

/-- The tail of `main` after `service.Manage()` returns
(src/vsphere-graphite.go lines 222-227): a non-nil error prints the status and
the error to stderr and exits with code 1; otherwise the status is printed to
stdout and the process exits with code 0. Result: (exit code, stdout lines,
stderr lines). -/
def mainExit (status : String) (err : Option GoError) :
    Nat × List String × List String :=
  match err with
  | some e => (1, [], [status ++ " Error: " ++ e])
  | none => (0, [status], [])

/-- Cumulative effect on the buffer of the `pointbuffer[bufferindex] = value`
assignments performed by a run of consecutive metric arrivals: write the Points
of `ps` into consecutive slots starting at index `i`. -/
def writeSeq (buf : List Point) (i : Nat) : List Point → List Point
  | [] => buf
  | p :: ps => writeSeq (buf.set i p) (i + 1) ps

/-- A concrete sample Point, used to instantiate theorems at concrete inputs. -/
def samplePoint (n : Nat) : Point :=
  { name := "vm" ++ Nat.repr n, value := Int.ofNat n, timestamp := 0, tags := [] }

lemma length_writeSeq : ∀ (ps : List Point) (buf : List Point) (i : Nat),
    (writeSeq buf i ps).length = buf.length
  | [], _, _ => rfl
  | p :: ps, buf, i => by
    rw [writeSeq, length_writeSeq ps, List.length_set]

lemma writeSeq_append : ∀ (xs ys : List Point) (buf : List Point) (i : Nat),
    writeSeq buf i (xs ++ ys) = writeSeq (writeSeq buf i xs) (i + xs.length) ys
  | [], ys, buf, i => by simp [writeSeq]
  | x :: xs, ys, buf, i => by
    rw [List.cons_append, writeSeq, writeSeq, writeSeq_append xs ys]
    congr 1
    simp [Nat.add_comm, Nat.add_assoc, Nat.add_left_comm]

lemma writeSeq_eq : ∀ (ps : List Point) (buf : List Point) (i : Nat),
    i + ps.length ≤ buf.length →
    writeSeq buf i ps = buf.take i ++ ps ++ buf.drop (i + ps.length)
  | [], buf, i, _ => by simp [writeSeq]
  | p :: ps, buf, i, h => by
    have hi : i < buf.length := by simp at h; omega
    have hT : (buf.take i).length = i := by
      rw [List.length_take]; omega
    have hsplit : buf.set i p = (buf.take i ++ [p]) ++ buf.drop (i + 1) := by
      rw [List.set_eq_take_cons_drop p hi]; simp
    have h1 : (buf.set i p).take (i + 1) = buf.take i ++ [p] := by
      rw [hsplit]
      exact List.take_left' (by simp [hT])
    have h2 : (buf.set i p).drop (i + 1 + ps.length) = buf.drop (i + 1 + ps.length) := by
      rw [hsplit, ← List.drop_drop, List.drop_left' (by simp [hT]), List.drop_drop]
    rw [writeSeq, writeSeq_eq ps (buf.set i p) (i + 1)
          (by rw [List.length_set]; simp at h ⊢; omega),
        h1, h2]
    have h3 : i + 1 + ps.length = i + (p :: ps).length := by simp; omega
    rw [h3]
    simp

lemma runLoop_append (backend : List Point → Option GoError) :
    ∀ (es₁ es₂ : List Event) (st : LoopState),
    runLoop backend st (es₁ ++ es₂) =
      match runLoop backend st es₁ with
      | (st1, none) => runLoop backend st1 es₂
      | (st1, some r) => (st1, some r)
  | [], es₂, st => by simp [runLoop]
  | e :: es₁, es₂, st => by
    rw [List.cons_append, runLoop, runLoop]
    rcases loopStep backend st e with ⟨st1, _ | r⟩
    · exact runLoop_append backend es₁ es₂ st1
    · rfl

lemma runLoop_metrics_lt (backend : List Point → Option GoError) :
    ∀ (ps : List Point) (st : LoopState),
    st.bufferindex + ps.length < st.pointbuffer.length →
    runLoop backend st (ps.map Event.metric) =
      ({ st with pointbuffer := writeSeq st.pointbuffer st.bufferindex ps,
                 bufferindex := st.bufferindex + ps.length }, none)
  | [], st, _ => by simp [runLoop, writeSeq]
  | p :: ps, st, h => by
    have hne : ¬ (st.bufferindex + 1 = (st.pointbuffer.set st.bufferindex p).length) := by
      rw [List.length_set]; simp at h; omega
    rw [List.map_cons, runLoop]
    simp only [loopStep, if_neg hne]
    rw [runLoop_metrics_lt backend ps _
          (by simp [List.length_set]; simp at h; omega)]
    simp only [writeSeq]
    congr 2
    simp at h ⊢
    omega

lemma runLoop_metrics_full (backend : List Point → Option GoError)
    (st : LoopState) (ps : List Point)
    (h : st.bufferindex + ps.length = st.pointbuffer.length) (hne : ps ≠ []) :
    runLoop backend st (ps.map Event.metric) =
      ({ pointbuffer := List.replicate st.pointbuffer.length Point.zero,
         bufferindex := 0,
         sent := st.sent ++ [writeSeq st.pointbuffer st.bufferindex ps],
         logs := st.logs ++ [sentLogMsg st.pointbuffer.length] }, none) := by
  rcases List.eq_nil_or_concat ps with rfl | ⟨q, p, rfl⟩
  · exact absurd rfl hne
  rw [List.concat_eq_append] at h ⊢
  simp only [List.length_append, List.length_singleton] at h
  rw [List.map_append, runLoop_append,
      runLoop_metrics_lt backend q st (by omega)]
  have hlen : ((writeSeq st.pointbuffer st.bufferindex q).set
      (st.bufferindex + q.length) p).length = st.pointbuffer.length := by
    rw [List.length_set, length_writeSeq]
  have hcond : st.bufferindex + q.length + 1 =
      ((writeSeq st.pointbuffer st.bufferindex q).set
        (st.bufferindex + q.length) p).length := by
    rw [hlen]; omega
  simp only [List.map_cons, List.map_nil, runLoop]
  simp only [loopStep, if_pos hcond]
  rw [writeSeq_append q [p] st.pointbuffer st.bufferindex]
  simp only [writeSeq]
  rw [hlen]

lemma loopStep_signal (backend : List Point → Option GoError) (st : LoopState)
    (sg : GoSignal) :
    loopStep backend st (Event.signal sg) =
      ({ st with
          sent := st.sent ++
            (if 0 < st.bufferindex then [st.pointbuffer.take st.bufferindex] else []),
          logs := (st.logs ++ ["Got signal: " ++ sg.toString]) ++
            (if 0 < st.bufferindex then [sentLogMsg st.bufferindex] else []) },
       some ((if sg = GoSignal.interrupt then "Daemon was interrupted by system signal"
              else "Daemon was killed"), none)) := by
  by_cases h1 : 0 < st.bufferindex <;> by_cases h2 : sg = GoSignal.interrupt <;>
    simp [loopStep, h1, h2]

lemma loopStep_metric_full (backend : List Point → Option GoError) (st : LoopState)
    (p : Point) (h : st.bufferindex + 1 = st.pointbuffer.length) :
    loopStep backend st (Event.metric p) =
      ({ pointbuffer := List.replicate st.pointbuffer.length Point.zero,
         bufferindex := 0,
         sent := st.sent ++ [st.pointbuffer.set st.bufferindex p],
         logs := st.logs ++ [sentLogMsg st.pointbuffer.length] }, none) := by
  simp only [loopStep, List.length_set, if_pos h]

lemma loopStep_metric_lt (backend : List Point → Option GoError) (st : LoopState)
    (p : Point) (h : ¬ st.bufferindex + 1 = st.pointbuffer.length) :
    loopStep backend st (Event.metric p) =
      ({ st with pointbuffer := st.pointbuffer.set st.bufferindex p,
                 bufferindex := st.bufferindex + 1 }, none) := by
  have h' : ¬ st.bufferindex + 1 = (st.pointbuffer.set st.bufferindex p).length := by
    rw [List.length_set]; exact h
  simp only [loopStep, if_neg h']

lemma loopStep_cursor_lt (backend : List Point → Option GoError) (st : LoopState)
    (e : Event) (h : st.bufferindex < st.pointbuffer.length) :
    (loopStep backend st e).1.bufferindex < (loopStep backend st e).1.pointbuffer.length ∧
    (loopStep backend st e).1.pointbuffer.length = st.pointbuffer.length := by
  cases e with
  | metric p =>
    by_cases hcond : st.bufferindex + 1 = st.pointbuffer.length
    · rw [loopStep_metric_full backend st p hcond]
      constructor
      · simp only [List.length_replicate]
        omega
      · simp only [List.length_replicate]
    · rw [loopStep_metric_lt backend st p hcond]
      constructor
      · simp only [List.length_set]
        omega
      · simp only [List.length_set]
  | tick => exact ⟨h, rfl⟩
  | memtimer size => exact ⟨h, rfl⟩
  | signal sg =>
    rw [loopStep_signal]
    exact ⟨h, rfl⟩

lemma runLoop_cursor_lt (backend : List Point → Option GoError) :
    ∀ (es : List Event) (st : LoopState),
    st.bufferindex < st.pointbuffer.length →
    (runLoop backend st es).1.bufferindex < (runLoop backend st es).1.pointbuffer.length ∧
    (runLoop backend st es).1.pointbuffer.length = st.pointbuffer.length
  | [], st, h => ⟨h, rfl⟩
  | e :: es, st, h => by
    rw [runLoop]
    have hstep := loopStep_cursor_lt backend st e h
    rcases hs : loopStep backend st e with ⟨st1, r⟩
    rw [hs] at hstep
    cases r with
    | none =>
      have := runLoop_cursor_lt backend es st1 hstep.1
      exact ⟨this.1, this.2.trans hstep.2⟩
    | some r => exact hstep

lemma loopStep_exit (backend : List Point → Option GoError) (st : LoopState)
    (e : Event) (st' : LoopState) (msg : String) (err : Option GoError)
    (h : loopStep backend st e = (st', some (msg, err))) : err = none := by
  cases e with
  | metric p =>
    simp only [loopStep] at h
    split at h <;> simp at h
  | tick => simp [loopStep] at h
  | memtimer size => simp [loopStep] at h
  | signal killSignal =>
    simp only [loopStep] at h
    split at h <;> simp at h <;> exact h.2.2.symm

lemma runLoop_exit (backend : List Point → Option GoError) :
    ∀ (es : List Event) (st : LoopState) (st' : LoopState) (msg : String)
    (err : Option GoError),
    runLoop backend st es = (st', some (msg, err)) → err = none
  | [], st, st', msg, err => by simp [runLoop]
  | e :: es, st, st', msg, err => by
    rw [runLoop]
    rcases he : loopStep backend st e with ⟨st1, _ | r⟩
    · exact runLoop_exit backend es st1 st' msg err
    · rintro h
      rcases r with ⟨m, er⟩
      simp at h
      rcases h with ⟨_, h2⟩
      rw [← h2.2]
      exact loopStep_exit backend st e st1 m er he

/-- C1: with the buffer fresh (cursor 0), appending exactly `capacity` Points via
metric-channel events triggers exactly one `SendMetrics` call whose batch is all
`capacity` Points in arrival order, after which `bufferindex` is reset to 0 and
the loop keeps running. -/
theorem flush_trigger (backend : List Point → Option GoError) (st : LoopState)
    (ps : List Point) (hfresh : st.bufferindex = 0)
    (hlen : ps.length = st.pointbuffer.length) (hpos : 0 < ps.length) :
    (runLoop backend st (ps.map Event.metric)).1.sent = st.sent ++ [ps] ∧
    (runLoop backend st (ps.map Event.metric)).1.bufferindex = 0 ∧
    (runLoop backend st (ps.map Event.metric)).2 = none := by
  have h : st.bufferindex + ps.length = st.pointbuffer.length := by omega
  rw [runLoop_metrics_full backend st ps h
        (by intro hnil; rw [hnil] at hpos; simp at hpos)]
  refine ⟨?_, rfl, rfl⟩
  have hw : writeSeq st.pointbuffer st.bufferindex ps = ps := by
    rw [hfresh, writeSeq_eq ps st.pointbuffer 0 (by omega), List.take_zero,
        List.drop_eq_nil_of_le (by omega), List.append_nil, List.nil_append]
  rw [hw]

/-- Witness for C1 at capacity 2 with two concrete Points. -/
theorem flush_trigger_witness :
    (initState 2).bufferindex = 0 ∧
    [samplePoint 1, samplePoint 2].length = (initState 2).pointbuffer.length ∧
    0 < [samplePoint 1, samplePoint 2].length ∧
    ((runLoop (fun _ => none) (initState 2)
        ([samplePoint 1, samplePoint 2].map Event.metric)).1.sent =
      (initState 2).sent ++ [[samplePoint 1, samplePoint 2]] ∧
    (runLoop (fun _ => none) (initState 2)
        ([samplePoint 1, samplePoint 2].map Event.metric)).1.bufferindex = 0 ∧
    (runLoop (fun _ => none) (initState 2)
        ([samplePoint 1, samplePoint 2].map Event.metric)).2 = none) :=
  ⟨rfl, rfl, by decide,
    flush_trigger (fun _ => none) (initState 2) [samplePoint 1, samplePoint 2]
      rfl rfl (by decide)⟩

/-- C4: with the buffer fresh (cursor 0), appending N Points where N is below
capacity dispatches nothing to the backend, leaves the loop running, sets the
cursor to N, and stores all N Points in slots [0, N) in arrival order. -/
theorem buffer_correctness (backend : List Point → Option GoError) (st : LoopState)
    (ps : List Point) (hfresh : st.bufferindex = 0)
    (hlt : ps.length < st.pointbuffer.length) :
    (runLoop backend st (ps.map Event.metric)).1.sent = st.sent ∧
    (runLoop backend st (ps.map Event.metric)).2 = none ∧
    (runLoop backend st (ps.map Event.metric)).1.bufferindex = ps.length ∧
    (runLoop backend st (ps.map Event.metric)).1.pointbuffer.take ps.length = ps := by
  rw [runLoop_metrics_lt backend ps st (by omega)]
  refine ⟨rfl, rfl, by simp [hfresh], ?_⟩
  rw [hfresh, writeSeq_eq ps st.pointbuffer 0 (by omega)]
  simp only [List.take_zero, List.nil_append]
  exact List.take_left' rfl

/-- Witness for C4 at capacity 3 with two concrete Points. -/
theorem buffer_correctness_witness :
    (initState 3).bufferindex = 0 ∧
    [samplePoint 1, samplePoint 2].length < (initState 3).pointbuffer.length ∧
    ((runLoop (fun _ => none) (initState 3)
        ([samplePoint 1, samplePoint 2].map Event.metric)).1.sent = (initState 3).sent ∧
    (runLoop (fun _ => none) (initState 3)
        ([samplePoint 1, samplePoint 2].map Event.metric)).2 = none ∧
    (runLoop (fun _ => none) (initState 3)
        ([samplePoint 1, samplePoint 2].map Event.metric)).1.bufferindex =
      [samplePoint 1, samplePoint 2].length ∧
    (runLoop (fun _ => none) (initState 3)
        ([samplePoint 1, samplePoint 2].map Event.metric)).1.pointbuffer.take
      [samplePoint 1, samplePoint 2].length = [samplePoint 1, samplePoint 2]) :=
  ⟨rfl, by decide,
    buffer_correctness (fun _ => none) (initState 3) [samplePoint 1, samplePoint 2]
      rfl (by decide)⟩

/-- C5: when an arriving Point fills the buffer (cursor + 1 = capacity), the full
flush resets every slot of the buffer to the zero-value sentinel Point before any
new Point is appended. -/
theorem slot_reuse (backend : List Point → Option GoError) (st : LoopState)
    (p : Point) (hfull : st.bufferindex + 1 = st.pointbuffer.length) :
    (loopStep backend st (Event.metric p)).1.pointbuffer =
      List.replicate st.pointbuffer.length Point.zero ∧
    ∀ q ∈ (loopStep backend st (Event.metric p)).1.pointbuffer, q = Point.zero := by
  have hcond : st.bufferindex + 1 = (st.pointbuffer.set st.bufferindex p).length := by
    rw [List.length_set]; exact hfull
  simp only [loopStep, if_pos hcond]
  refine ⟨by rw [List.length_set], ?_⟩
  intro q hq
  exact List.eq_of_mem_replicate hq

/-- Witness for C5: a capacity-1 buffer flushed by one concrete Point. -/
theorem slot_reuse_witness :
    (initState 1).bufferindex + 1 = (initState 1).pointbuffer.length ∧
    ((loopStep (fun _ => none) (initState 1) (Event.metric (samplePoint 1))).1.pointbuffer =
      List.replicate (initState 1).pointbuffer.length Point.zero ∧
    ∀ q ∈ (loopStep (fun _ => none) (initState 1)
        (Event.metric (samplePoint 1))).1.pointbuffer, q = Point.zero) :=
  ⟨rfl, slot_reuse (fun _ => none) (initState 1) (samplePoint 1) rfl⟩

/-- C9: handling a memory-timer tick leaves the point buffer, the cursor, and the
dispatch trace unchanged, appends only the memory-usage log line, and never makes
the loop return. -/
theorem memtimer_frame (backend : List Point → Option GoError) (st : LoopState)
    (size : String) :
    (loopStep backend st (Event.memtimer size)).1.pointbuffer = st.pointbuffer ∧
    (loopStep backend st (Event.memtimer size)).1.bufferindex = st.bufferindex ∧
    (loopStep backend st (Event.memtimer size)).1.sent = st.sent ∧
    (loopStep backend st (Event.memtimer size)).1.logs =
      st.logs ++ ["Memory usage : " ++ size] ∧
    (loopStep backend st (Event.memtimer size)).2 = none :=
  ⟨rfl, rfl, rfl, rfl, rfl⟩

/-- C7: if `config.Backend.Init` fails, `Manage` returns
"Could not initialize backend" together with that error before launching any
query goroutine, starting any ticker, or entering the consuming loop, and `main`
then exits with code 1 and a diagnostic on stderr. -/
theorem backend_init_fatal (flushSizeCfg numVCenters : Nat) (e : GoError)
    (backend : List Point → Option GoError) (events : List Event) :
    Manage flushSizeCfg numVCenters (some e) backend events =
      { queriesLaunched := 0, tickerStarted := false, memtimerStarted := false,
        loopEntered := false,
        result := some ("Could not initialize backend", some e),
        finalState := none } ∧
    (mainExit "Could not initialize backend" (some e)).1 = 1 ∧
    (mainExit "Could not initialize backend" (some e)).2.2 =
      ["Could not initialize backend Error: " ++ e] :=
  ⟨rfl, rfl, rfl⟩

/-- C8: a termination signal makes the loop return with a nil error in every
case; an interrupt yields one exit message and any other signal yields a
distinct one. -/
theorem shutdown_exit_narrative (backend : List Point → Option GoError)
    (st : LoopState) (sg : GoSignal) :
    (loopStep backend st (Event.signal sg)).2 =
      some ((if sg = GoSignal.interrupt then "Daemon was interrupted by system signal"
             else "Daemon was killed"), none) ∧
    ("Daemon was interrupted by system signal" : String) ≠ "Daemon was killed" := by
  refine ⟨?_, by decide⟩
  rw [loopStep_signal]

/-- C2: with the buffer fresh (cursor 0), appending k Points with k below
capacity and then receiving a termination signal makes exactly one dispatch call
with exactly those k Points in arrival order (none at all when k = 0), and the
loop returns, ignoring every event that follows the signal. -/
theorem shutdown_flush (backend : List Point → Option GoError) (st : LoopState)
    (ps : List Point) (sg : GoSignal) (rest : List Event)
    (hfresh : st.bufferindex = 0) (hk : ps.length < st.pointbuffer.length) :
    (runLoop backend st (ps.map Event.metric ++ Event.signal sg :: rest)).1.sent =
      st.sent ++ (if ps = [] then [] else [ps]) ∧
    ((runLoop backend st (ps.map Event.metric ++ Event.signal sg :: rest)).2).isSome
      = true ∧
    runLoop backend st (ps.map Event.metric ++ Event.signal sg :: rest) =
      runLoop backend st (ps.map Event.metric ++ [Event.signal sg]) := by
  have hfeed := runLoop_metrics_lt backend ps st (by omega)
  have key : ∀ (tail : List Event),
      runLoop backend st (ps.map Event.metric ++ Event.signal sg :: tail) =
        loopStep backend
          { st with pointbuffer := writeSeq st.pointbuffer st.bufferindex ps,
                    bufferindex := st.bufferindex + ps.length }
          (Event.signal sg) := by
    intro tail
    rw [runLoop_append backend _ _ st, hfeed]
    show runLoop backend _ (Event.signal sg :: tail) = _
    rw [runLoop, loopStep_signal]
  refine ⟨?_, ?_, ?_⟩
  · rw [key rest, loopStep_signal]
    by_cases hps : ps = []
    · subst hps
      simp [hfresh]
    · have hpos : 0 < ps.length := List.length_pos.mpr hps
      have hgt : 0 < st.bufferindex + ps.length := by omega
      have htake : List.take (st.bufferindex + ps.length)
          (writeSeq st.pointbuffer st.bufferindex ps) = ps := by
        rw [hfresh, writeSeq_eq ps st.pointbuffer 0 (by omega)]
        simp only [List.take_zero, List.nil_append, Nat.zero_add]
        exact List.take_left' rfl
      simp [htake, hps, hgt]
  · rw [key rest, loopStep_signal]
    rfl
  · rw [key rest, key []]

/-- Witness for C2 at capacity 2 with one concrete Point, a SIGTERM, and a
trailing tick event that the loop must ignore. -/
theorem shutdown_flush_witness :
    (initState 2).bufferindex = 0 ∧
    [samplePoint 1].length < (initState 2).pointbuffer.length ∧
    ((runLoop (fun _ => none) (initState 2)
        ([samplePoint 1].map Event.metric ++
          Event.signal GoSignal.sigterm :: [Event.tick])).1.sent =
      (initState 2).sent ++
        (if [samplePoint 1] = ([] : List Point) then [] else [[samplePoint 1]]) ∧
    ((runLoop (fun _ => none) (initState 2)
        ([samplePoint 1].map Event.metric ++
          Event.signal GoSignal.sigterm :: [Event.tick])).2).isSome = true ∧
    runLoop (fun _ => none) (initState 2)
        ([samplePoint 1].map Event.metric ++
          Event.signal GoSignal.sigterm :: [Event.tick]) =
      runLoop (fun _ => none) (initState 2)
        ([samplePoint 1].map Event.metric ++ [Event.signal GoSignal.sigterm])) :=
  ⟨rfl, by decide,
    shutdown_flush (fun _ => none) (initState 2) [samplePoint 1]
      GoSignal.sigterm [Event.tick] rfl (by decide)⟩

/-- C3: each step of the consuming loop keeps the cursor inside [0, N) for buffer
capacity N and preserves the buffer length; a metric arrival flushes the full
buffer and resets the cursor to 0 exactly when the cursor reaches N, the other
events leave the dispatch trace alone except a signal, which dispatches exactly
the partial slice [0, cursor) and ends the loop; the bound also holds after any
event trace. -/
theorem cursor_invariant (backend : List Point → Option GoError)
    (st : LoopState) (e : Event) (es : List Event)
    (hlt : st.bufferindex < st.pointbuffer.length) :
    (loopStep backend st e).1.pointbuffer.length = st.pointbuffer.length ∧
    (loopStep backend st e).1.bufferindex < st.pointbuffer.length ∧
    (match e with
     | Event.metric p =>
       if st.bufferindex + 1 = st.pointbuffer.length then
         (loopStep backend st (Event.metric p)).1.sent =
           st.sent ++ [st.pointbuffer.set st.bufferindex p] ∧
         (loopStep backend st (Event.metric p)).1.bufferindex = 0
       else
         (loopStep backend st (Event.metric p)).1.sent = st.sent ∧
         (loopStep backend st (Event.metric p)).1.bufferindex = st.bufferindex + 1
     | Event.tick =>
       (loopStep backend st Event.tick).1.sent = st.sent ∧
       (loopStep backend st Event.tick).1.bufferindex = st.bufferindex
     | Event.memtimer size =>
       (loopStep backend st (Event.memtimer size)).1.sent = st.sent ∧
       (loopStep backend st (Event.memtimer size)).1.bufferindex = st.bufferindex
     | Event.signal sg =>
       (loopStep backend st (Event.signal sg)).1.sent =
         st.sent ++
           (if 0 < st.bufferindex then [st.pointbuffer.take st.bufferindex] else []) ∧
       (loopStep backend st (Event.signal sg)).1.bufferindex = st.bufferindex ∧
       ((loopStep backend st (Event.signal sg)).2).isSome = true) ∧
    (runLoop backend st es).1.bufferindex <
      (runLoop backend st es).1.pointbuffer.length := by
  have hstep := loopStep_cursor_lt backend st e hlt
  refine ⟨hstep.2, hstep.2 ▸ hstep.1, ?_, (runLoop_cursor_lt backend es st hlt).1⟩
  cases e with
  | metric p =>
    show if st.bufferindex + 1 = st.pointbuffer.length then
        (loopStep backend st (Event.metric p)).1.sent =
          st.sent ++ [st.pointbuffer.set st.bufferindex p] ∧
        (loopStep backend st (Event.metric p)).1.bufferindex = 0
      else
        (loopStep backend st (Event.metric p)).1.sent = st.sent ∧
        (loopStep backend st (Event.metric p)).1.bufferindex = st.bufferindex + 1
    by_cases hcond : st.bufferindex + 1 = st.pointbuffer.length
    · rw [if_pos hcond, loopStep_metric_full backend st p hcond]
      exact ⟨rfl, rfl⟩
    · rw [if_neg hcond, loopStep_metric_lt backend st p hcond]
      exact ⟨rfl, rfl⟩
  | tick => exact ⟨rfl, rfl⟩
  | memtimer size => exact ⟨rfl, rfl⟩
  | signal sg =>
    exact ⟨by rw [loopStep_signal], by rw [loopStep_signal],
      by rw [loopStep_signal]; rfl⟩

/-- Witness for C3 at a tick event on a fresh capacity-2 buffer. -/
theorem cursor_invariant_witness :
    (initState 2).bufferindex < (initState 2).pointbuffer.length ∧
    ((loopStep (fun _ => none) (initState 2) Event.tick).1.pointbuffer.length =
        (initState 2).pointbuffer.length ∧
      (loopStep (fun _ => none) (initState 2) Event.tick).1.bufferindex <
        (initState 2).pointbuffer.length ∧
      ((loopStep (fun _ => none) (initState 2) Event.tick).1.sent =
          (initState 2).sent ∧
        (loopStep (fun _ => none) (initState 2) Event.tick).1.bufferindex =
          (initState 2).bufferindex) ∧
      (runLoop (fun _ => none) (initState 2) []).1.bufferindex <
        (runLoop (fun _ => none) (initState 2) []).1.pointbuffer.length) :=
  ⟨by decide, cursor_invariant (fun _ => none) (initState 2) Event.tick [] (by decide)⟩

/-- C6: the loop behaves identically whatever `SendMetrics` returns, so a send
failure is absorbed at the call site; on a full flush the count is logged, the
batch appears exactly once in the dispatch trace, the buffer is reset (the batch
is neither retried nor persisted), the loop does not return, and it goes on
processing the subsequent events. -/
theorem backend_failure_dropped (f g : List Point → Option GoError)
    (st : LoopState) (p : Point) (e : Event)
    (hfull : st.bufferindex + 1 = st.pointbuffer.length) :
    loopStep f st e = loopStep g st e ∧
    (loopStep f st (Event.metric p)).2 = none ∧
    (loopStep f st (Event.metric p)).1.sent =
      st.sent ++ [st.pointbuffer.set st.bufferindex p] ∧
    (loopStep f st (Event.metric p)).1.logs =
      st.logs ++ [sentLogMsg st.pointbuffer.length] ∧
    (loopStep f st (Event.metric p)).1.pointbuffer =
      List.replicate st.pointbuffer.length Point.zero ∧
    ∀ es, runLoop f st (Event.metric p :: es) =
      runLoop f (loopStep f st (Event.metric p)).1 es := by
  refine ⟨by cases e <;> rfl, ?_, ?_, ?_, ?_, ?_⟩
  · rw [loopStep_metric_full f st p hfull]
  · rw [loopStep_metric_full f st p hfull]
  · rw [loopStep_metric_full f st p hfull]
  · rw [loopStep_metric_full f st p hfull]
  · intro es
    rw [runLoop, loopStep_metric_full f st p hfull]

/-- Witness for C6: a capacity-1 buffer flushed by one Point against a failing
backend and a succeeding one. -/
theorem backend_failure_dropped_witness :
    (initState 1).bufferindex + 1 = (initState 1).pointbuffer.length ∧
    (loopStep (fun _ => some "connection refused") (initState 1) Event.tick =
      loopStep (fun _ => none) (initState 1) Event.tick ∧
    (loopStep (fun _ => some "connection refused") (initState 1)
        (Event.metric (samplePoint 1))).2 = none ∧
    (loopStep (fun _ => some "connection refused") (initState 1)
        (Event.metric (samplePoint 1))).1.sent =
      (initState 1).sent ++
        [(initState 1).pointbuffer.set (initState 1).bufferindex (samplePoint 1)] ∧
    (loopStep (fun _ => some "connection refused") (initState 1)
        (Event.metric (samplePoint 1))).1.logs =
      (initState 1).logs ++ [sentLogMsg (initState 1).pointbuffer.length] ∧
    (loopStep (fun _ => some "connection refused") (initState 1)
        (Event.metric (samplePoint 1))).1.pointbuffer =
      List.replicate (initState 1).pointbuffer.length Point.zero ∧
    ∀ es, runLoop (fun _ => some "connection refused") (initState 1)
        (Event.metric (samplePoint 1) :: es) =
      runLoop (fun _ => some "connection refused")
        (loopStep (fun _ => some "connection refused") (initState 1)
          (Event.metric (samplePoint 1))).1 es) :=
  ⟨rfl, backend_failure_dropped (fun _ => some "connection refused") (fun _ => none)
    (initState 1) (samplePoint 1) Event.tick rfl⟩

/-- C10: whenever the consuming loop of `Manage` returns, the returned error is
nil, so `main` prints the status to stdout and the process exits with code 0;
signal-driven shutdown never yields a non-zero exit code. -/
theorem signal_exit_zero (flushSizeCfg numVCenters : Nat)
    (backend : List Point → Option GoError) (events : List Event)
    (msg : String) (err : Option GoError)
    (h : (Manage flushSizeCfg numVCenters none backend events).result =
      some (msg, err)) :
    err = none ∧ mainExit msg err = (0, [msg], []) := by
  simp only [Manage] at h
  rcases hr : runLoop backend
      (initState (if flushSizeCfg = 0 then 1000 else flushSizeCfg)) events
    with ⟨st', r2⟩
  rw [hr] at h
  simp only at h
  subst h
  have herr := runLoop_exit backend events _ st' msg err (by rw [hr])
  subst herr
  exact ⟨rfl, rfl⟩

/-- Witness for C10: a kill signal on a fresh capacity-1 loop. -/
theorem signal_exit_zero_witness :
    (Manage 1 0 none (fun _ => none) [Event.signal GoSignal.kill]).result =
      some ("Daemon was killed", (none : Option GoError)) ∧
    ((none : Option GoError) = none ∧
      mainExit "Daemon was killed" none = (0, ["Daemon was killed"], [])) :=
  ⟨rfl, signal_exit_zero 1 0 (fun _ => none) [Event.signal GoSignal.kill]
    "Daemon was killed" none rfl⟩

end VsphereGraphite
